import Mathlib

/-!
Verification of the environment-bootstrap orchestrator
(`src/ersilia/utils/installers.py`, class `Installer`).

The embedding models the installer as pure state transformers.  A value of
type `Env` fixes the machine-level facts the code queries (which tools are
on the executable search path, whether a Python import of `rdkit`
succeeds, which files exist).  A value of type `IState` carries the
mutable fields of the `Installer` object together with the on-disk ledger
file content.  Each step returns the next state plus a trace of external
effects (`Event`), and fallible operations return `Except PyError`.
Strings are Lean `String`s; Python sets of task ids are `Finset String`.
-/

/-- Outcome of the Python statement `import rdkit` inside the probe of
`Installer.rdkit`: the import succeeds, raises `ModuleNotFoundError`, or
raises some other exception. -/
inductive ImportOutcome where
  | ok : ImportOutcome
  | moduleNotFound : ImportOutcome
  | otherError : ImportOutcome
deriving DecidableEq

/-- State of the ledger file on disk (the file at `self.log_file`):
absent, present and readable with the given content, or present but
unreadable for a lower-level I/O reason. -/
inductive FileState where
  | absent : FileState
  | readable : String → FileState
  | unreadable : FileState
deriving DecidableEq

/-- Python exceptions that the modelled code can raise. -/
inductive PyError where
  | fileNotFound : PyError
  | ioError : PyError
  | importError : PyError
deriving DecidableEq

/-- External effects performed by the installer steps. -/
inductive Event where
  | isTool : String → Event
  | runCmd : String → Event
  | importRdkit : Event
  | makedirs : String → Event
  | copyFile : String → String → Event
  | symlink : String → String → Event
  | downloadSingle : String → Event
deriving DecidableEq

/-- Machine-level environment queried by the installer: `which` models
`shutil.which(name) is not None`, `pathExists` models `os.path.exists`,
`rdkitImport` fixes the outcome of the probe import, and `packageRoot` is
the candidate development directory obtained from `__file__` by two
`os.path.split` steps in `_package_path`. -/
structure Env where
  which : String → Bool
  rdkitImport : ImportOutcome
  pathExists : String → Bool
  packageRoot : String

/-- Mutable fields of the `Installer` object together with the on-disk
ledger file: `development_path` and `log` are the attributes of the same
name (`log = none` models `self.log is None`), `check_install_log` is the
constructor flag, and `ledger_file` is the content of the file at
`self.log_file`. -/
structure IState where
  development_path : Option String
  check_install_log : Bool
  log : Option (Finset String)
  ledger_file : FileState
deriving DecidableEq

/-- Modelled from the spec: `os.path.join` for the relative one-segment
joins the code performs. -/
def joinPath (a b : String) : String := a ++ "/" ++ b

/-- Modelled from the spec: `EOS`, the fixed root data directory constant
imported from `ersilia.default`, whose module is not under src. -/
def EOS : String := "eos"

/-- Modelled from the spec: `CONFIG_JSON`, the config artifact file name
constant imported from `ersilia.default`, whose module is not under src. -/
def CONFIG_JSON : String := "config.json"

/-- Characters removed by the Python `str.rstrip()` call in `read_log`:
exactly the code points for which the Python predicate `str.isspace()`
holds (tab through carriage return, the information separators 28-31,
space, next line 133, no-break space 160, ogham space 5760, the Unicode
space range 8192-8202, line and paragraph separator 8232 and 8233,
narrow no-break space 8239, mathematical space 8287, ideographic space
12288). -/
def isPySpace (c : Char) : Bool :=
  (9 ≤ c.toNat ∧ c.toNat ≤ 13) ∨ (28 ≤ c.toNat ∧ c.toNat ≤ 31) ∨ c.toNat = 32 ∨
  c.toNat = 133 ∨ c.toNat = 160 ∨ c.toNat = 5760 ∨
  (8192 ≤ c.toNat ∧ c.toNat ≤ 8202) ∨ c.toNat = 8232 ∨ c.toNat = 8233 ∨
  c.toNat = 8239 ∨ c.toNat = 8287 ∨ c.toNat = 12288

/-- Python `str.rstrip()`: drop trailing whitespace characters. -/
def pyRstrip (s : String) : String :=
  ⟨(s.data.reverse.dropWhile isPySpace).reverse⟩

/-- Helper for `splitLines`: walks the character list accumulating the
current line in reverse.  Python opens the file in text mode with
universal newlines, so a line feed, a carriage return, or the pair
carriage return plus line feed each terminate a line and are all
translated to a single line feed in the line the iteration yields; a
nonempty final fragment without a terminator is also a line.  The
boolean argument records that the previous character was a carriage
return whose line was already emitted, so one immediately following
line feed is consumed without emitting another line. -/
def splitLinesAux : List Char → List Char → Bool → List String
  | [], acc, _ => if acc.isEmpty then [] else [⟨acc.reverse⟩]
  | c :: rest, acc, afterCR =>
    if c = '\n' then
      if afterCR then splitLinesAux rest [] false
      else (⟨acc.reverse ++ ['\n']⟩ : String) :: splitLinesAux rest [] false
    else if c = '\x0d' then
      (⟨acc.reverse ++ ['\n']⟩ : String) :: splitLinesAux rest [] true
    else splitLinesAux rest (c :: acc) false

/-- Python iteration over the lines of a file with the given content
(`for l in f`, text mode with universal newlines): each line keeps a
single translated line feed terminator. -/
def splitLines (s : String) : List String := splitLinesAux s.data [] false

/-- The file content produced by the write loop of `write_log` on a given
ordered list of entries: each entry followed by a newline. -/
def serializeList : List String → String
  | [] => ""
  | s :: rest => s ++ "\n" ++ serializeList rest

/-- The file content `write_log` produces for the in-memory set `self.log`:
the entries sorted ascending (`sorted(self.log)`), one per line. -/
def serialize (S : Finset String) : String :=
  serializeList (S.sort (· ≤ ·))

/-- The in-memory set `read_log` builds from a file content: the lines,
each right-stripped, collected into a set. -/
def parseLog (content : String) : Finset String :=
  ((splitLines content).map pyRstrip).toFinset

/-- Bool-valued test that a task id is not yet recorded in the in-memory
ledger (true also when `self.log is None`). -/
def notRecorded (name : String) (st : IState) : Bool :=
  match st.log with
  | none => true
  | some l => if name ∈ l then false else true

/-- Number of side-effecting actions (`run_command` invocations) in a
trace. -/
def countActions (tr : List Event) : Nat :=
  (tr.filter fun e => match e with | Event.runCmd _ => true | _ => false).length

namespace Installer

/-- Method `write_log`: when `self.log is None` return without touching
the file; otherwise rewrite the whole ledger file with the sorted
entries, one per line. -/
def write_log (st : IState) : IState :=
  match st.log with
  | none => st
  | some l => { st with ledger_file := FileState.readable (serialize l) }

/-- Method `update_log`: set `self.log` to `{task}` when it was `None`,
insert `task`, then `write_log`. -/
def update_log (task : String) (st : IState) : IState :=
  match st.log with
  | none => write_log { st with log := some {task} }
  | some l => write_log { st with log := some (insert task l) }

/-- Method `read_log`: return unchanged when the ledger file does not
exist; otherwise read every line, right-strip it, and store the set in
`self.log`.  The `open` call has no exception handler, so a file that
exists but cannot be read raises. -/
def read_log (st : IState) : Except PyError IState :=
  match st.ledger_file with
  | FileState.absent => Except.ok st
  | FileState.readable content => Except.ok { st with log := some (parseLog content) }
  | FileState.unreadable => Except.error PyError.ioError

/-- Method `_is_done`: with tracking disabled always false; with the task
already in the in-memory ledger, true without any write; otherwise record
the task (in memory and on disk) and return false. -/
def _is_done (name : String) (st : IState) : Bool × IState :=
  if st.check_install_log = false then (false, st)
  else
    match st.log with
    | none => (false, update_log name st)
    | some l => if name ∈ l then (true, st) else (false, update_log name st)

/-- Static method `_is_tool`: `shutil.which(name) is not None`. -/
def _is_tool (env : Env) (name : String) : Bool := env.which name

/-- Method `_package_path`: when `development_path` is `None`, take the
candidate directory two `os.path.split` steps above `__file__`, run the
three marker checks (each assigning `None` on failure), and then assign
the candidate path unconditionally; the final assignment is not guarded
by the marker checks. -/
def _package_path (env : Env) (st : IState) : IState :=
  match st.development_path with
  | none =>
    let path := env.packageRoot
    let st1 :=
      if env.pathExists (joinPath path "setup.py") = false then
        { st with development_path := none }
      else st
    let st2 :=
      if env.pathExists (joinPath path "README.md") = false then
        { st1 with development_path := none }
      else st1
    let st3 :=
      if env.pathExists (joinPath path "CODE_OF_CONDUCT.md") = false then
        { st2 with development_path := none }
      else st2
    { st3 with development_path := some path }
  | some _ => st

/-- Method `_config` (constructor-time resolution of the config
artifact): no-op when the destination exists; otherwise detect the
development path and either symlink the source from it or download the
file from the remote host. -/
def _config (env : Env) (st : IState) : IState × List Event :=
  if env.pathExists (joinPath EOS CONFIG_JSON) then (st, [])
  else
    let st1 := _package_path env st
    match st1.development_path with
    | none => (st1, [Event.downloadSingle CONFIG_JSON])
    | some dev =>
      let src := joinPath dev CONFIG_JSON
      if env.pathExists src then (st1, [Event.symlink src (joinPath EOS CONFIG_JSON)])
      else (st1, [Event.downloadSingle CONFIG_JSON])

/-- Method `conda`: ledger gate, then path probe for the tool, then the
install action. -/
def conda (env : Env) (st : IState) : IState × List Event :=
  let r := _is_done "conda" st
  if r.1 then (r.2, [])
  else if _is_tool env "conda" then (r.2, [Event.isTool "conda"])
  else (r.2, [Event.isTool "conda", Event.runCmd "pip install -y conda"])

/-- Method `git`: ledger gate, then path probe for the tool; only when
the tool is absent does it invoke `conda` and then run the install
action. -/
def git (env : Env) (st : IState) : IState × List Event :=
  let r := _is_done "git" st
  if r.1 then (r.2, [])
  else if _is_tool env "git" then (r.2, [Event.isTool "git"])
  else
    let c := conda env r.2
    (c.1, Event.isTool "git" :: c.2 ++ [Event.runCmd "conda install -y -q git"])

/-- Method `rdkit`: ledger gate, then the probe `import rdkit` catching
only `ModuleNotFoundError`; any other exception from the import
propagates.  When the import fails with `ModuleNotFoundError` the
install action runs. -/
def rdkit (env : Env) (st : IState) : Except PyError (IState × List Event) :=
  let r := _is_done "rdkit" st
  if r.1 then Except.ok (r.2, [])
  else
    match env.rdkitImport with
    | ImportOutcome.ok => Except.ok (r.2, [Event.importRdkit])
    | ImportOutcome.moduleNotFound =>
      Except.ok (r.2, [Event.importRdkit,
        Event.runCmd "conda install -c conda-forge -y -q rdkit"])
    | ImportOutcome.otherError => Except.error PyError.importError

/-- Method `config` (the config step): ledger gate, destination-exists
gate, `os.makedirs`, development-path detection, then either a local
`shutil.copyfile` from the development tree (raising `FileNotFoundError`
when the source file is absent) or a remote download when the
development path is `None`. -/
def config (env : Env) (st : IState) : Except PyError (IState × List Event) :=
  let r := _is_done "config" st
  if r.1 then Except.ok (r.2, [])
  else if env.pathExists (joinPath EOS CONFIG_JSON) then Except.ok (r.2, [])
  else
    let st2 := _package_path env r.2
    match st2.development_path with
    | some dev =>
      let src := joinPath dev CONFIG_JSON
      let dst := joinPath EOS CONFIG_JSON
      if env.pathExists src then
        Except.ok (st2, [Event.makedirs EOS, Event.copyFile src dst])
      else Except.error PyError.fileNotFound
    | none => Except.ok (st2, [Event.makedirs EOS, Event.downloadSingle CONFIG_JSON])

end Installer

/-! Helper definitions and lemmas shared by the claim theorems. -/

/-- The in-memory ledger set right after `update_log name`. -/
def logAfter (name : String) (st : IState) : Finset String :=
  match st.log with
  | none => {name}
  | some l => insert name l

/-- A concrete environment: no tool on the path, no file exists, the
rdkit import raises `ModuleNotFoundError`, candidate package directory
`pkg`. -/
def env0 : Env :=
  { which := fun _ => false
    rdkitImport := ImportOutcome.moduleNotFound
    pathExists := fun _ => false
    packageRoot := "pkg" }

/-- A concrete fresh installer state: no development path, tracking
enabled, no in-memory ledger, no ledger file. -/
def st0 : IState :=
  { development_path := none
    check_install_log := true
    log := none
    ledger_file := FileState.absent }

theorem update_log_spec (name : String) (st : IState) :
    Installer.update_log name st =
      { st with log := some (logAfter name st),
                ledger_file := FileState.readable (serialize (logAfter name st)) } := by
  cases hst : st.log <;>
    simp [Installer.update_log, Installer.write_log, logAfter, hst]

@[simp] theorem update_log_development_path (name : String) (st : IState) :
    (Installer.update_log name st).development_path = st.development_path := by
  rw [update_log_spec]

@[simp] theorem update_log_check_install_log (name : String) (st : IState) :
    (Installer.update_log name st).check_install_log = st.check_install_log := by
  rw [update_log_spec]

@[simp] theorem update_log_log (name : String) (st : IState) :
    (Installer.update_log name st).log = some (logAfter name st) := by
  rw [update_log_spec]

@[simp] theorem update_log_ledger_file (name : String) (st : IState) :
    (Installer.update_log name st).ledger_file
      = FileState.readable (serialize (logAfter name st)) := by
  rw [update_log_spec]

theorem mem_logAfter_self (name : String) (st : IState) : name ∈ logAfter name st := by
  cases hst : st.log <;> simp [logAfter, hst]

theorem _is_done_not_recorded (name : String) (st : IState)
    (htrack : st.check_install_log = true) (hnot : notRecorded name st = true) :
    Installer._is_done name st = (false, Installer.update_log name st) := by
  cases hst : st.log with
  | none => simp [Installer._is_done, htrack, hst]
  | some l =>
    have hmem : ¬ name ∈ l := by
      simp [notRecorded, hst] at hnot
      exact hnot
    simp [Installer._is_done, htrack, hst, hmem]

theorem _is_done_recorded (name : String) (st : IState) (l : Finset String)
    (htrack : st.check_install_log = true) (hlog : st.log = some l) (hmem : name ∈ l) :
    Installer._is_done name st = (true, st) := by
  simp [Installer._is_done, htrack, hlog, hmem]

theorem conda_skip (env : Env) (st : IState) (l : Finset String)
    (htrack : st.check_install_log = true) (hlog : st.log = some l)
    (hmem : "conda" ∈ l) :
    Installer.conda env st = (st, []) := by
  simp [Installer.conda, _is_done_recorded "conda" st l htrack hlog hmem]

theorem conda_not_recorded (env : Env) (st : IState)
    (htrack : st.check_install_log = true) (hnot : notRecorded "conda" st = true) :
    Installer.conda env st =
      (Installer.update_log "conda" st,
       if env.which "conda" then [Event.isTool "conda"]
       else [Event.isTool "conda", Event.runCmd "pip install -y conda"]) := by
  by_cases hw : env.which "conda" = true <;>
    simp [Installer.conda, _is_done_not_recorded "conda" st htrack hnot,
      Installer._is_tool, hw]

/-! Claim theorems. -/

/-- C1: with tracking enabled and the task not yet recorded, when the
liveness probe reports conda present on the path, `conda()` returns after
the probe without running the install action, and the task id is
nevertheless recorded in the in-memory ledger and written to the ledger
file, because `_is_done` records it before the probe runs. -/
theorem conda_probe_short_circuit (env : Env) (st : IState)
    (htrack : st.check_install_log = true)
    (hnot : notRecorded "conda" st = true)
    (hprobe : env.which "conda" = true) :
    (Installer.conda env st).2 = [Event.isTool "conda"] ∧
    (Installer.conda env st).1.log = some (logAfter "conda" st) ∧
    "conda" ∈ logAfter "conda" st ∧
    (Installer.conda env st).1.ledger_file
      = FileState.readable (serialize (logAfter "conda" st)) := by
  rw [conda_not_recorded env st htrack hnot]
  exact ⟨by simp [hprobe], by simp, mem_logAfter_self "conda" st, by simp⟩

/-- Witness for C1 at a concrete environment and fresh state. -/
theorem conda_probe_short_circuit_witness :
    ({ env0 with which := fun n => n == "conda" } : Env).which "conda" = true ∧
    notRecorded "conda" st0 = true ∧
    (Installer.conda { env0 with which := fun n => n == "conda" } st0).2
      = [Event.isTool "conda"] ∧
    (Installer.conda { env0 with which := fun n => n == "conda" } st0).1.log
      = some (logAfter "conda" st0) :=
  ⟨rfl, rfl,
    (conda_probe_short_circuit { env0 with which := fun n => n == "conda" } st0
      rfl rfl rfl).1,
    (conda_probe_short_circuit { env0 with which := fun n => n == "conda" } st0
      rfl rfl rfl).2.1⟩

/-- C2: with tracking enabled, calling `conda()` twice on one installer
runs the install action at most once over both calls, and the second call
performs no external call at all (empty trace): the first call records
the task, so the second is stopped by the ledger gate. -/
theorem conda_twice_at_most_one_action (env : Env) (st : IState)
    (htrack : st.check_install_log = true) :
    (Installer.conda env (Installer.conda env st).1).2 = [] ∧
    countActions ((Installer.conda env st).2
      ++ (Installer.conda env (Installer.conda env st).1).2) ≤ 1 := by
  by_cases hrec : notRecorded "conda" st = true
  · rw [conda_not_recorded env st htrack hrec]
    have hsecond :
        Installer.conda env (Installer.update_log "conda" st)
          = (Installer.update_log "conda" st, []) := by
      refine conda_skip env _ (logAfter "conda" st) ?_ ?_ ?_
      · simp [htrack]
      · simp
      · exact mem_logAfter_self "conda" st
    by_cases hw : env.which "conda" = true <;>
      simp [hw, hsecond, countActions]
  · have hl : ∃ l, st.log = some l ∧ "conda" ∈ l := by
      cases hst : st.log with
      | none => simp [notRecorded, hst] at hrec
      | some l =>
        refine ⟨l, rfl, ?_⟩
        by_cases hm : "conda" ∈ l
        · exact hm
        · simp [notRecorded, hst, hm] at hrec
    obtain ⟨l, hlog, hmem⟩ := hl
    rw [conda_skip env st l htrack hlog hmem]
    rw [conda_skip env st l htrack hlog hmem]
    simp [countActions]

/-- Witness for C2 at a concrete environment and fresh state. -/
theorem conda_twice_at_most_one_action_witness :
    st0.check_install_log = true ∧
    (Installer.conda env0 (Installer.conda env0 st0).1).2 = [] ∧
    countActions ((Installer.conda env0 st0).2
      ++ (Installer.conda env0 (Installer.conda env0 st0).1).2) ≤ 1 :=
  ⟨rfl, (conda_twice_at_most_one_action env0 st0 rfl).1,
    (conda_twice_at_most_one_action env0 st0 rfl).2⟩

/-- C9: with tracking enabled and the task already in the loaded ledger,
`conda()` returns immediately: the state (including the ledger file
content) is unchanged and no external call happens, even when the conda
tool is genuinely absent from the path. -/
theorem recorded_task_skips_probe_and_action (env : Env) (st : IState)
    (l : Finset String)
    (htrack : st.check_install_log = true) (hlog : st.log = some l)
    (hmem : "conda" ∈ l) (habsent : env.which "conda" = false) :
    Installer.conda env st = (st, []) :=
  conda_skip env st l htrack hlog hmem

/-- Witness for C9: ledger already contains the task, tool absent. -/
theorem recorded_task_skips_probe_and_action_witness :
    env0.which "conda" = false ∧
    Installer.conda env0
      { st0 with log := some ({"conda"} : Finset String),
                 ledger_file := FileState.readable "conda\n" }
      = ({ st0 with log := some ({"conda"} : Finset String),
                    ledger_file := FileState.readable "conda\n" }, []) :=
  ⟨rfl,
    recorded_task_skips_probe_and_action env0
      { st0 with log := some ({"conda"} : Finset String),
                 ledger_file := FileState.readable "conda\n" }
      {"conda"} rfl rfl (by simp) rfl⟩

/-- C8: the rdkit probe treats only `ModuleNotFoundError` as a negative
signal: with that outcome the step proceeds to the install action, while
any other exception raised by the probe import propagates to the caller
instead of being coerced into absent. -/
theorem rdkit_module_not_found_vs_other_error (env env2 : Env) (st : IState)
    (htrack : st.check_install_log = true)
    (hnot : notRecorded "rdkit" st = true)
    (h1 : env.rdkitImport = ImportOutcome.moduleNotFound)
    (h2 : env2.rdkitImport = ImportOutcome.otherError) :
    Installer.rdkit env st = Except.ok (Installer.update_log "rdkit" st,
      [Event.importRdkit, Event.runCmd "conda install -c conda-forge -y -q rdkit"]) ∧
    Installer.rdkit env2 st = Except.error PyError.importError := by
  constructor <;>
    simp [Installer.rdkit, _is_done_not_recorded "rdkit" st htrack hnot, h1, h2]

/-- Witness for C8 at concrete environments and a fresh state. -/
theorem rdkit_module_not_found_vs_other_error_witness :
    env0.rdkitImport = ImportOutcome.moduleNotFound ∧
    Installer.rdkit env0 st0 = Except.ok (Installer.update_log "rdkit" st0,
      [Event.importRdkit, Event.runCmd "conda install -c conda-forge -y -q rdkit"]) ∧
    Installer.rdkit { env0 with rdkitImport := ImportOutcome.otherError } st0
      = Except.error PyError.importError :=
  ⟨rfl,
    (rdkit_module_not_found_vs_other_error env0
      { env0 with rdkitImport := ImportOutcome.otherError } st0 rfl rfl rfl rfl).1,
    (rdkit_module_not_found_vs_other_error env0
      { env0 with rdkitImport := ImportOutcome.otherError } st0 rfl rfl rfl rfl).2⟩

/-- Counterexample for C5: with the ledger file present but unreadable,
`read_log` raises instead of treating the ledger as empty — it neither
continues with the state unchanged nor with an empty set loaded. -/
theorem read_log_unreadable_cex :
    Installer.read_log { st0 with ledger_file := FileState.unreadable }
      = Except.error PyError.ioError ∧
    Installer.read_log { st0 with ledger_file := FileState.unreadable }
      ≠ Except.ok { st0 with ledger_file := FileState.unreadable } ∧
    Installer.read_log { st0 with ledger_file := FileState.unreadable }
      ≠ Except.ok
        { st0 with ledger_file := FileState.unreadable, log := some (∅ : Finset String) } :=
  ⟨rfl, by simp [Installer.read_log, st0], by simp [Installer.read_log, st0]⟩

/-- C5 amended: only the file-not-exists case is treated as empty state
(`read_log` returns with the log left as it was); when the file exists
but is unreadable, the I/O error propagates out of `read_log` and the
bootstrap crashes. -/
theorem read_log_unreadable_raises (st st2 : IState)
    (h : st.ledger_file = FileState.unreadable)
    (h2 : st2.ledger_file = FileState.absent) :
    Installer.read_log st = Except.error PyError.ioError ∧
    Installer.read_log st2 = Except.ok st2 := by
  constructor <;> simp [Installer.read_log, h, h2]

/-- Witness for the amended C5 at concrete states. -/
theorem read_log_unreadable_raises_witness :
    ({ st0 with ledger_file := FileState.unreadable } : IState).ledger_file
      = FileState.unreadable ∧
    st0.ledger_file = FileState.absent ∧
    Installer.read_log { st0 with ledger_file := FileState.unreadable }
      = Except.error PyError.ioError ∧
    Installer.read_log st0 = Except.ok st0 :=
  ⟨rfl, rfl,
    (read_log_unreadable_raises { st0 with ledger_file := FileState.unreadable }
      st0 rfl rfl).1,
    (read_log_unreadable_raises { st0 with ledger_file := FileState.unreadable }
      st0 rfl rfl).2⟩

/-- Counterexample for C6: with git already on the path and the task not
in the ledger, `git()` passes the ledger gate but returns right after its
own probe: the trace holds only the git path probe, and the resulting
ledger contains `git` alone, so the conda step was never invoked. -/
theorem git_probe_skips_conda_cex :
    (Installer.git { env0 with which := fun n => n == "git" } st0).2
      = [Event.isTool "git"] ∧
    (Installer.git { env0 with which := fun n => n == "git" } st0).1.log
      = some ({"git"} : Finset String) := by
  constructor <;> rfl

/-- C6 amended: `git()` consults its own liveness probe first and invokes
the conda step only when git is absent from the path; in that case the
conda step runs before the git install action. -/
theorem git_invokes_conda_only_when_git_absent (env : Env) (st : IState)
    (htrack : st.check_install_log = true)
    (hnot : notRecorded "git" st = true)
    (habsent : env.which "git" = false) :
    (Installer.git env st).1 = (Installer.conda env (Installer.update_log "git" st)).1 ∧
    (Installer.git env st).2 = Event.isTool "git"
      :: (Installer.conda env (Installer.update_log "git" st)).2
      ++ [Event.runCmd "conda install -y -q git"] := by
  constructor <;>
    simp [Installer.git, _is_done_not_recorded "git" st htrack hnot,
      Installer._is_tool, habsent]

/-- Witness for the amended C6 at a concrete environment and state. -/
theorem git_invokes_conda_only_when_git_absent_witness :
    env0.which "git" = false ∧
    notRecorded "git" st0 = true ∧
    (Installer.git env0 st0).1
      = (Installer.conda env0 (Installer.update_log "git" st0)).1 ∧
    (Installer.git env0 st0).2 = Event.isTool "git"
      :: (Installer.conda env0 (Installer.update_log "git" st0)).2
      ++ [Event.runCmd "conda install -y -q git"] :=
  ⟨rfl, rfl,
    (git_invokes_conda_only_when_git_absent env0 st0 rfl rfl rfl).1,
    (git_invokes_conda_only_when_git_absent env0 st0 rfl rfl rfl).2⟩

/-- C3: the marker checks of `_package_path` do not guard the final
assignment: at a state with no cached path and an environment where all
three marker files are missing, `development_path` still ends up set to
the candidate directory instead of being voided to `None`. -/
theorem package_path_ignores_markers :
    env0.pathExists (joinPath "pkg" "setup.py") = false ∧
    env0.pathExists (joinPath "pkg" "README.md") = false ∧
    env0.pathExists (joinPath "pkg" "CODE_OF_CONDUCT.md") = false ∧
    (Installer._package_path env0 st0).development_path = some "pkg" :=
  ⟨rfl, rfl, rfl, rfl⟩

theorem package_path_of_none (env : Env) (st : IState)
    (hdev : st.development_path = none) :
    (Installer._package_path env st).development_path = some env.packageRoot := by
  simp only [Installer._package_path, hdev]

theorem package_path_of_some (env : Env) (st : IState) (d : String)
    (hdev : st.development_path = some d) :
    Installer._package_path env st = st := by
  simp [Installer._package_path, hdev]

/-- Counterexample for C7: destination absent, development path detected,
source file present under it — the config step resolves by copying the
file (`shutil.copyfile`), not by creating a link: the trace holds a copy
event and no symlink event. -/
theorem config_step_copies_not_links_cex :
    Installer.config { env0 with pathExists := fun p => p == joinPath "pkg" CONFIG_JSON } st0
      = Except.ok
        (Installer._package_path
          { env0 with pathExists := fun p => p == joinPath "pkg" CONFIG_JSON }
          (Installer.update_log "config" st0),
         [Event.makedirs EOS,
          Event.copyFile (joinPath "pkg" CONFIG_JSON) (joinPath EOS CONFIG_JSON)]) ∧
    Event.symlink (joinPath "pkg" CONFIG_JSON) (joinPath EOS CONFIG_JSON)
      ∉ [Event.makedirs EOS,
         Event.copyFile (joinPath "pkg" CONFIG_JSON) (joinPath EOS CONFIG_JSON)] :=
  ⟨rfl, by decide⟩

/-- C7 amended: with the destination absent, the development path
detected, and the source file present under it, the constructor-time
resolver `_config` creates a symlink from destination to source, while
the config step `config()` copies the file instead; neither performs a
remote fetch. -/
theorem config_artifact_resolution (env : Env) (st : IState)
    (hdev : st.development_path = none)
    (hdst : env.pathExists (joinPath EOS CONFIG_JSON) = false)
    (hsrc : env.pathExists (joinPath env.packageRoot CONFIG_JSON) = true)
    (htrack : st.check_install_log = true)
    (hnot : notRecorded "config" st = true) :
    Installer._config env st =
      (Installer._package_path env st,
       [Event.symlink (joinPath env.packageRoot CONFIG_JSON) (joinPath EOS CONFIG_JSON)]) ∧
    Installer.config env st = Except.ok
      (Installer._package_path env (Installer.update_log "config" st),
       [Event.makedirs EOS,
        Event.copyFile (joinPath env.packageRoot CONFIG_JSON) (joinPath EOS CONFIG_JSON)]) := by
  have hpp := package_path_of_none env st hdev
  have hpp2 : (Installer._package_path env (Installer.update_log "config" st)).development_path
      = some env.packageRoot := by
    apply package_path_of_none
    simp [hdev]
  constructor
  · simp [Installer._config, hdst, hpp, hsrc]
  · simp [Installer.config, _is_done_not_recorded "config" st htrack hnot, hdst, hpp2, hsrc]

/-- Witness for the amended C7 at a concrete environment and state. -/
theorem config_artifact_resolution_witness :
    st0.development_path = none ∧
    ({ env0 with pathExists := fun p => p == joinPath "pkg" CONFIG_JSON } : Env).pathExists
      (joinPath EOS CONFIG_JSON) = false ∧
    ({ env0 with pathExists := fun p => p == joinPath "pkg" CONFIG_JSON } : Env).pathExists
      (joinPath "pkg" CONFIG_JSON) = true ∧
    Installer._config { env0 with pathExists := fun p => p == joinPath "pkg" CONFIG_JSON } st0 =
      (Installer._package_path
        { env0 with pathExists := fun p => p == joinPath "pkg" CONFIG_JSON } st0,
       [Event.symlink (joinPath "pkg" CONFIG_JSON) (joinPath EOS CONFIG_JSON)]) :=
  ⟨rfl, by decide, by decide,
    (config_artifact_resolution
      { env0 with pathExists := fun p => p == joinPath "pkg" CONFIG_JSON } st0
      rfl (by decide) (by decide) rfl rfl).1⟩

/-- The development path after detection, read out of the state. -/
def devOf (env : Env) (st : IState) : String :=
  ((Installer._package_path env st).development_path).getD ""

/-- C10: after `_package_path` the development path is always set (the
final unconditional assignment guarantees it), so every execution of
`config()` that reaches the action takes the local branch: it never
downloads, and it either copies the config file from the development
tree or raises an unhandled file-not-found error when the source file is
absent there. -/
theorem config_always_local_copy (env env2 : Env) (st st2 : IState)
    (htrack : st.check_install_log = true)
    (hnot : notRecorded "config" st = true)
    (hdst : env.pathExists (joinPath EOS CONFIG_JSON) = false) :
    ((Installer._package_path env2 st2).development_path).isSome = true ∧
    Installer.config env st =
      (if env.pathExists (joinPath (devOf env (Installer.update_log "config" st)) CONFIG_JSON)
       then Except.ok (Installer._package_path env (Installer.update_log "config" st),
         [Event.makedirs EOS,
          Event.copyFile (joinPath (devOf env (Installer.update_log "config" st)) CONFIG_JSON)
            (joinPath EOS CONFIG_JSON)])
       else Except.error PyError.fileNotFound) := by
  constructor
  · cases hdev2 : st2.development_path with
    | none => simp [package_path_of_none env2 st2 hdev2]
    | some d => simp [package_path_of_some env2 st2 d hdev2, hdev2]
  · cases hdev : st.development_path with
    | none =>
      have hpp : (Installer._package_path env (Installer.update_log "config" st)).development_path
          = some env.packageRoot := by
        apply package_path_of_none
        simp [hdev]
      have hdev2 : devOf env (Installer.update_log "config" st) = env.packageRoot := by
        simp [devOf, hpp]
      rw [hdev2]
      by_cases hsrc : env.pathExists (joinPath env.packageRoot CONFIG_JSON) = true
      · simp [Installer.config, _is_done_not_recorded "config" st htrack hnot, hdst, hpp, hsrc]
      · simp only [Bool.not_eq_true] at hsrc
        simp [Installer.config, _is_done_not_recorded "config" st htrack hnot, hdst, hpp, hsrc]
    | some d =>
      have hpp : Installer._package_path env (Installer.update_log "config" st)
          = Installer.update_log "config" st := by
        apply package_path_of_some env _ d
        simp [hdev]
      have hdev2 : devOf env (Installer.update_log "config" st) = d := by
        simp [devOf, hpp, hdev]
      rw [hdev2]
      by_cases hsrc : env.pathExists (joinPath d CONFIG_JSON) = true
      · simp [Installer.config, _is_done_not_recorded "config" st htrack hnot, hdst, hpp,
          hdev, hsrc]
      · simp only [Bool.not_eq_true] at hsrc
        simp [Installer.config, _is_done_not_recorded "config" st htrack hnot, hdst, hpp,
          hdev, hsrc]

/-- Witness for C10: no file exists anywhere, so the config action takes
the local branch and raises file-not-found instead of downloading. -/
theorem config_always_local_copy_witness :
    st0.check_install_log = true ∧
    notRecorded "config" st0 = true ∧
    env0.pathExists (joinPath EOS CONFIG_JSON) = false ∧
    ((Installer._package_path env0 st0).development_path).isSome = true ∧
    Installer.config env0 st0 =
      (if env0.pathExists (joinPath (devOf env0 (Installer.update_log "config" st0)) CONFIG_JSON)
       then Except.ok (Installer._package_path env0 (Installer.update_log "config" st0),
         [Event.makedirs EOS,
          Event.copyFile (joinPath (devOf env0 (Installer.update_log "config" st0)) CONFIG_JSON)
            (joinPath EOS CONFIG_JSON)])
       else Except.error PyError.fileNotFound) :=
  ⟨rfl, rfl, rfl,
    (config_always_local_copy env0 env0 st0 st0 rfl rfl rfl).1,
    (config_always_local_copy env0 env0 st0 st0 rfl rfl rfl).2⟩

/-! Serialization lemmas for the ledger round trip. -/

theorem splitLinesAux_line (cs : List Char) (h : ∀ c ∈ cs, c ≠ '\n' ∧ c ≠ '\x0d') :
    ∀ (acc rest : List Char),
      splitLinesAux (cs ++ '\n' :: rest) acc false
        = (⟨acc.reverse ++ cs ++ ['\n']⟩ : String) :: splitLinesAux rest [] false := by
  induction cs with
  | nil =>
    intro acc rest
    simp [splitLinesAux]
  | cons c cs ih =>
    intro acc rest
    have hc : c ≠ '\n' := (h c (List.mem_cons_self c cs)).1
    have hcr : c ≠ '\x0d' := (h c (List.mem_cons_self c cs)).2
    have hcs : ∀ x ∈ cs, x ≠ '\n' ∧ x ≠ '\x0d' :=
      fun x hx => h x (List.mem_cons_of_mem c hx)
    simp only [List.cons_append, splitLinesAux, if_neg hc, if_neg hcr, List.append_eq]
    rw [ih hcs (c :: acc) rest]
    simp

theorem mk_append_newline (s : String) : (⟨s.data ++ ['\n']⟩ : String) = s ++ "\n" := by
  cases s
  rfl

theorem splitLines_serializeList (l : List String)
    (h : ∀ s ∈ l, ∀ c ∈ s.data, c ≠ '\n' ∧ c ≠ '\x0d') :
    splitLines (serializeList l) = l.map (fun s => s ++ "\n") := by
  induction l with
  | nil => rfl
  | cons s rest ih =>
    have hs : ∀ c ∈ s.data, c ≠ '\n' ∧ c ≠ '\x0d' := h s (List.mem_cons_self s rest)
    have hrest : ∀ x ∈ rest, ∀ c ∈ x.data, c ≠ '\n' ∧ c ≠ '\x0d' :=
      fun x hx => h x (List.mem_cons_of_mem s hx)
    have hdata : (serializeList (s :: rest)).data
        = s.data ++ ('\n' :: (serializeList rest).data) := by
      simp [serializeList, String.data_append]
    unfold splitLines
    rw [hdata, splitLinesAux_line s.data hs [] (serializeList rest).data]
    simp only [List.reverse_nil, List.nil_append, List.map_cons]
    rw [mk_append_newline]
    exact congrArg _ (ih hrest)

theorem pyRstrip_append_newline (s : String) : pyRstrip (s ++ "\n") = pyRstrip s := by
  rw [← mk_append_newline]
  cases s with
  | mk d =>
    simp [pyRstrip, List.reverse_append]
    rw [List.dropWhile_cons]
    simp [show isPySpace '\n' = true from by decide]

theorem map_id_of_fixed {α : Type} (f : α → α) (l : List α)
    (h : ∀ a ∈ l, f a = a) : l.map f = l := by
  induction l with
  | nil => rfl
  | cons a l ih =>
    simp only [List.map_cons, h a (List.mem_cons_self a l)]
    exact congrArg _ (ih fun x hx => h x (List.mem_cons_of_mem a hx))

theorem parseLog_serialize (S : Finset String)
    (h : ∀ s ∈ S, s ≠ "" ∧ (∀ c ∈ s.data, c ≠ '\n' ∧ c ≠ '\x0d') ∧ pyRstrip s = s) :
    parseLog (serialize S) = S := by
  unfold parseLog serialize
  rw [splitLines_serializeList _
    (fun s hs => (h s ((Finset.mem_sort (α := String) (· ≤ ·)).1 hs)).2.1)]
  rw [List.map_map]
  rw [map_id_of_fixed _ _ (fun s hs => by
    have hss := h s ((Finset.mem_sort (α := String) (· ≤ ·)).1 hs)
    simp [Function.comp, pyRstrip_append_newline, hss.2.2])]
  exact Finset.sort_toFinset _ _

/-- Counterexample for C4: the set containing the single task id with a
trailing space is non-empty and newline-free, yet writing and reading
the ledger yields a different set, because the read loop right-strips
every line. -/
theorem round_trip_trailing_space_cex :
    ("a " : String) ≠ "" ∧
    ("a " : String).data.contains '\n' = false ∧
    parseLog (serialize ({"a "} : Finset String)) = ({"a"} : Finset String) ∧
    parseLog (serialize ({"a "} : Finset String)) ≠ ({"a "} : Finset String) := by
  refine ⟨by decide, by decide, ?_, ?_⟩
  all_goals rw [serialize, Finset.sort_singleton]
  · decide
  · decide

/-- C4 amended: for every finite set of non-empty task id strings free
of embedded newline characters (line feed or carriage return, both line
breaks under the text-mode read) and free of trailing whitespace in the
sense of the Python predicate `str.isspace()`, writing the ledger and
reading the file back recovers exactly the same set. -/
theorem write_read_round_trip (S : Finset String) (st : IState)
    (h : ∀ s ∈ S, s ≠ "" ∧ (∀ c ∈ s.data, c ≠ '\n' ∧ c ≠ '\x0d') ∧ pyRstrip s = s)
    (hst : st.log = some S) :
    (Installer.write_log st).log = some S ∧
    Installer.read_log (Installer.write_log st) = Except.ok (Installer.write_log st) := by
  obtain ⟨dp, chk, lg, lf⟩ := st
  simp only at hst
  subst hst
  constructor
  · rfl
  · simp [Installer.write_log, Installer.read_log, parseLog_serialize S h]

/-- Witness for the amended C4 at a concrete singleton ledger. -/
theorem write_read_round_trip_witness :
    (∀ s ∈ ({"conda"} : Finset String),
      s ≠ "" ∧ (∀ c ∈ s.data, c ≠ '\n' ∧ c ≠ '\x0d') ∧ pyRstrip s = s) ∧
    (Installer.write_log { st0 with log := some ({"conda"} : Finset String) }).log
      = some ({"conda"} : Finset String) ∧
    Installer.read_log
        (Installer.write_log { st0 with log := some ({"conda"} : Finset String) })
      = Except.ok (Installer.write_log { st0 with log := some ({"conda"} : Finset String) }) :=
  ⟨by decide,
    (write_read_round_trip {"conda"} { st0 with log := some ({"conda"} : Finset String) }
      (by decide) rfl).1,
    (write_read_round_trip {"conda"} { st0 with log := some ({"conda"} : Finset String) }
      (by decide) rfl).2⟩
